import Mathlib

set_option linter.unusedVariables false

/-!
Verification of the g6-investment-agent orchestration core.

This file gives a shallow embedding of the Python sources
(`data_models.py`, `agents.py`, `workflows.py`, `research_agent.py`) and
proves or refutes the frozen claims about them.

Modelling conventions:
* Python floats are modelled as rationals.
* A JSON value (what `json.loads` yields) is the inductive type `Json`;
  a Python dict with string keys is an association list `JsonObj`.
* Each LLM round trip is an oracle parameter.  A call site that wraps the
  call in `try/except` receives the oracle as `Option`/`Except`, where
  `none`/`.error` stands for the raised exception (including a
  `json.JSONDecodeError` when the decode happens inside the same `try`).
* A Python function that can raise to its caller returns `Except Unit`.
-/

namespace InvestmentAgent

/-- A JSON value, as produced by `json.loads`. -/
inductive Json where
  | null : Json
  | bool : Bool → Json
  | num : ℚ → Json
  | str : String → Json
  | arr : List Json → Json
  | obj : List (String × Json) → Json

/-- A JSON object / Python dict with string keys (insertion ordered). -/
abbrev JsonObj := List (String × Json)

/-- First binding of key `k`, mirroring Python `d[k]` / `d.get(k)`. -/
def jLookup (o : JsonObj) (k : String) : Option Json :=
  match o with
  | [] => none
  | (k1, v) :: rest => if k1 = k then some v else jLookup rest k

/-- Python `k in d`. -/
def jHasKey (o : JsonObj) (k : String) : Bool :=
  (jLookup o k).isSome

/-- Python `d.get(k, dflt)`. -/
def jGetD (o : JsonObj) (k : String) (dflt : Json) : Json :=
  (jLookup o k).getD dflt

/-- Python `d[k] = v`: replace the binding in place, else append. -/
def jSet (o : JsonObj) (k : String) (v : Json) : JsonObj :=
  match o with
  | [] => [(k, v)]
  | (k1, v1) :: rest => if k1 = k then (k1, v) :: rest else (k1, v1) :: jSet rest k v

/-- Python `d.get(k, dflt)` at a call site that immediately uses the value
as a number (comparison or arithmetic): an absent key yields the default,
a numeric value yields that number, and a present non-numeric value is
`none` (the Python code would raise a `TypeError` at the use site). -/
def jGetNumD (o : JsonObj) (k : String) (dflt : ℚ) : Option ℚ :=
  match jLookup o k with
  | none => some dflt
  | some (Json.num q) => some q
  | some _ => none

/-- Python `d.get(k, dflt)` narrowed to the numeric values that the model
stores (model granularity: a present non-numeric value collapses to the
default; such values never arise in the flows the claims are about). -/
def jNumD (o : JsonObj) (k : String) (dflt : ℚ) : ℚ :=
  match jLookup o k with
  | some (Json.num q) => q
  | _ => dflt

/-- Python `d.get(k, dflt)` narrowed to string values (model granularity,
as for `jNumD`). -/
def jStrD (o : JsonObj) (k : String) (dflt : String) : String :=
  match jLookup o k with
  | some (Json.str s) => s
  | _ => dflt

/-- The string elements of a JSON array (model granularity: the Python
code stores raw list elements, whose declared type is `List[str]`). -/
def jStrList : Json → List String
  | Json.arr xs => xs.filterMap fun j => match j with | Json.str s => some s | _ => none
  | _ => []

/-- Python truthiness of a JSON value. -/
def jTruthy : Json → Bool
  | Json.null => false
  | Json.bool b => b
  | Json.num q => decide (q ≠ 0)
  | Json.str s => !s.isEmpty
  | Json.arr xs => !xs.isEmpty
  | Json.obj kvs => !kvs.isEmpty

theorem jLookup_jSet_self (o : JsonObj) (k : String) (v : Json) :
    jLookup (jSet o k v) k = some v := by
  induction o with
  | nil => simp [jSet, jLookup]
  | cons p rest ih =>
    by_cases h : p.1 = k <;> simp [jSet, jLookup, h, ih]

theorem jLookup_jSet_ne (o : JsonObj) (k k1 : String) (v : Json) (h : k1 ≠ k) :
    jLookup (jSet o k v) k1 = jLookup o k1 := by
  have hk : ¬ (k = k1) := fun h2 => h h2.symm
  induction o with
  | nil => simp [jSet, jLookup, hk]
  | cons p rest ih =>
    by_cases h2 : p.1 = k
    · simp [jSet, jLookup, h2, hk]
    · simp only [jSet, if_neg h2, jLookup]
      by_cases h3 : p.1 = k1 <;> simp [h3, ih]

/-- The last `n` elements of a list: Python `l[-n:]` for `n ≤ len(l)`. -/
def lastN (n : ℕ) (l : List α) : List α :=
  l.drop (l.length - n)

/-! ## `data_models.py` -/

/-- `ResearchPlan` (src/data_models.py, lines 6-37): the timestamp is
supplied by the caller (in Python, `datetime.now()` in `__post_init__`). -/
structure ResearchPlan where
  stock_symbol : String
  objectives : List String
  data_sources : List String
  analysis_steps : List String
  expected_outputs : List String
  reasoning : String
  timestamp : String

/-- `AnalysisResult` (src/data_models.py, lines 40-69).  The `findings`
dict and the `recommendations` value hold whatever the model returned,
hence `Json`. -/
structure AnalysisResult where
  agent_name : String
  timestamp : String
  data_source : String
  findings : Json
  confidence_score : ℚ
  recommendations : Json
  llm_reasoning : String

/-- Constructing an `AnalysisResult` runs `__post_init__`
(src/data_models.py, lines 53-55): a confidence score outside [0, 1]
raises `ValueError`. -/
def mkAnalysisResult (agent_name timestamp data_source : String) (findings : Json)
    (confidence_score : ℚ) (recommendations : Json) (llm_reasoning : String) :
    Except String AnalysisResult :=
  if 0 ≤ confidence_score ∧ confidence_score ≤ 1 then
    .ok ⟨agent_name, timestamp, data_source, findings, confidence_score,
         recommendations, llm_reasoning⟩
  else
    .error "Confidence score must be between 0.0 and 1.0"

/-- `AnalysisResult.to_dict` (via `dataclasses.asdict`). -/
def AnalysisResult.to_dict (r : AnalysisResult) : JsonObj :=
  [("agent_name", Json.str r.agent_name),
   ("timestamp", Json.str r.timestamp),
   ("data_source", Json.str r.data_source),
   ("findings", r.findings),
   ("confidence_score", Json.num r.confidence_score),
   ("recommendations", r.recommendations),
   ("llm_reasoning", Json.str r.llm_reasoning)]

/-- `AgentMemory` (src/data_models.py, lines 72-102). -/
structure AgentMemory where
  stock_symbol : String
  timestamp : String
  insights : List String
  quality_scores : List (String × ℚ)
  recommendations : List String
  analysis_count : ℤ
deriving DecidableEq

/-- `AgentMemory.add_insight` (src/data_models.py, lines 96-102): append
the insight if it is not already present, then keep only the most recent
10 entries. -/
def AgentMemory.add_insight (m : AgentMemory) (insight : String) : AgentMemory :=
  if insight ∈ m.insights then m
  else
    let l := m.insights ++ [insight]
    if l.length > 10 then { m with insights := lastN 10 l }
    else { m with insights := l }

/-- `WorkflowResult` (src/data_models.py, lines 105-120). -/
structure WorkflowResult where
  workflow_name : String
  timestamp : String
  steps_completed : ℕ
  final_output : Json
  intermediate_results : List JsonObj
  execution_time_seconds : ℚ

/-! ## `agents.py` -/

/-- Python `str()` of a JSON value inside an f-string (model granularity:
containers render as empty). -/
def jText : Json → String
  | Json.str s => s
  | Json.num q => toString q
  | Json.bool b => if b then "True" else "False"
  | Json.null => "None"
  | _ => ""

/-- Derived price change in `MarketDataAgent._create_market_prompt`
(src/agents.py, line 125): Python
`current_price - prev_close if current_price and prev_close else 0`,
where a float is falsy exactly when it is 0. -/
def price_change (current_price prev_close : ℚ) : ℚ :=
  if current_price ≠ 0 ∧ prev_close ≠ 0 then current_price - prev_close else 0

/-- src/agents.py, line 126:
`(price_change / prev_close * 100) if prev_close else 0`. -/
def price_change_pct (current_price prev_close : ℚ) : ℚ :=
  if prev_close ≠ 0 then price_change current_price prev_close / prev_close * 100 else 0

/-- src/agents.py, lines 129-132: the 52-week range position is computed
only when both bounds are truthy (nonzero) and `high > low`; otherwise the
local stays `None`. -/
def range_position (current_price week52_low week52_high : ℚ) : Option ℚ :=
  if week52_high ≠ 0 ∧ week52_low ≠ 0 ∧ week52_high > week52_low then
    some ((current_price - week52_low) / (week52_high - week52_low) * 100)
  else none

/-- src/agents.py, line 148: the prompt renders `"N/A"` unless
`range_position` is truthy — so also when the computed position is 0. -/
def range_position_is_na (rp : Option ℚ) : Bool :=
  match rp with
  | none => true
  | some r => decide (r = 0)

/-- `MarketDataAgent.analyze` (src/agents.py, lines 39-107).  The oracle
`llm` is the chat-completions round trip: `.error` is a raised transport
exception, `.ok (text, parsed)` is the returned text together with the
result of `json.loads(text)` (`none` = `json.JSONDecodeError`, which this
agent catches in an inner `try`).  Any other exception inside the outer
`try` is re-raised as `RuntimeError`, hence `.error`. -/
def MarketDataAgent.analyze (symbol : String) (data : JsonObj) (now : String)
    (llm : Except Unit (String × Option Json)) : Except Unit AnalysisResult :=
  match llm with
  | .error _ => .error ()
  | .ok (llm_analysis, parsed) =>
    let findings : Json :=
      match parsed with
      | some f => f
      | none =>
        Json.obj [("raw_analysis", Json.str llm_analysis),
                  ("price_trend", Json.str "Analysis provided in raw format"),
                  ("recommendations", Json.arr [Json.str "Review raw analysis for insights"])]
    match findings with
    | Json.obj o =>
      let recommendations := jGetD o "recommendations" (Json.arr [])
      let recommendations :=
        match recommendations with
        | Json.str s => Json.arr [Json.str s]
        | r => r
      match mkAnalysisResult "Market Data Agent" now "Yahoo Finance AOI + OpenAI GPT-4o-mini"
          findings 0.85 recommendations llm_analysis with
      | .ok r => .ok r
      | .error _ => .error ()
    | _ => .error ()

/-- `FundamentalsAgent.analyze` (src/agents.py, lines 257-298).  Here
`json.loads` runs inside the single outer `try`, whose handler re-raises
every exception — so unparseable model output makes the call raise. -/
def FundamentalsAgent.analyze (symbol : String) (data : JsonObj) (now : String)
    (llm : Except Unit (String × Option Json)) : Except Unit AnalysisResult :=
  match llm with
  | .error _ => .error ()
  | .ok (llm_analysis, parsed) =>
    match parsed with
    | none => .error ()
    | some findings =>
      match findings with
      | Json.obj o =>
        match mkAnalysisResult "Fundamentals Agent" now "Yahoo Finance + Alpha Vantage + OpenAI"
            findings 0.82 (jGetD o "recommendations" (Json.arr [])) llm_analysis with
        | .ok r => .ok r
        | .error _ => .error ()
      | _ => .error ()

/-- `EconomicContextAgent.analyze` (src/agents.py, lines 374-415): same
structure as the fundamentals agent (parse failure re-raised). -/
def EconomicContextAgent.analyze (sector : String) (economic_data : JsonObj) (now : String)
    (llm : Except Unit (String × Option Json)) : Except Unit AnalysisResult :=
  match llm with
  | .error _ => .error ()
  | .ok (llm_analysis, parsed) =>
    match parsed with
    | none => .error ()
    | some findings =>
      match findings with
      | Json.obj o =>
        match mkAnalysisResult "Economic Context Agent" now "FRED + OpenAI"
            findings 0.85 (jGetD o "recommendations" (Json.arr [])) llm_analysis with
        | .ok r => .ok r
        | .error _ => .error ()
      | _ => .error ()

/-- `RegulatoryAgent.analyze` (src/agents.py, lines 521-565): pure
rule-based synthesis, no model call.  Model granularity: a non-list
`recent_filings` value is treated as empty, a non-dict filing element
contributes an empty form type, and `filing_types` (Python
`list(set(...))`, whose order is unspecified) keeps first occurrences. -/
def RegulatoryAgent.analyze (symbol : String) (filings_data : JsonObj) (now : String) :
    Except Unit AnalysisResult :=
  let recent_filings : List Json :=
    match jGetD filings_data "recent_filings" (Json.arr []) with
    | Json.arr xs => xs
    | _ => []
  let total_filings := jGetD filings_data "total_filings" (Json.num 0)
  let cik := jGetD filings_data "cik" (Json.str "Unknown")
  let compliance_status := if recent_filings.isEmpty then "Unknown" else "Current"
  let filing_types : List String :=
    ((recent_filings.take 10).map fun f =>
      match f with
      | Json.obj fo => jStrD fo "form_type" ""
      | _ => "").dedup
  let latest_filing := recent_filings.headD Json.null
  let findings : JsonObj :=
    [("cik", cik),
     ("total_filings", total_filings),
     ("recent_filings_count", Json.num recent_filings.length),
     ("filing_types", Json.arr (filing_types.map Json.str)),
     ("latest_filing", latest_filing),
     ("compliance_status", Json.str compliance_status)]
  let recommendations : List Json :=
    [Json.str ("Company maintains " ++ compliance_status ++ " SEC filings (CIK: "
        ++ jText cik ++ ")"),
     Json.str ("Total filings on record: " ++ jText total_filings),
     Json.str "Review recent 10-K for annual details",
     Json.str "Review recent 10-Q for quarterly updates"]
  let recommendations :=
    if jTruthy latest_filing then
      Json.str ("Latest filing: "
        ++ (match latest_filing with
            | Json.obj lo => jText (jGetD lo "form_type" Json.null)
            | _ => "None")
        ++ " on "
        ++ (match latest_filing with
            | Json.obj lo => jText (jGetD lo "filing_date" Json.null)
            | _ => "None")) :: recommendations
    else recommendations
  match mkAnalysisResult "Regulatory Agent" now "SEC EDGAR" (Json.obj findings)
      0.70 (Json.arr recommendations) "Structured analysis of SEC filings data" with
  | .ok r => .ok r
  | .error _ => .error ()

/-! ## `workflows.py` -/

/-- Length of a JSON value under Python `len()` (model granularity: only
sized values; `len` of other values would raise). -/
def jLen : Json → ℕ
  | Json.arr xs => xs.length
  | Json.str s => s.length
  | Json.obj kvs => kvs.length
  | _ => 0

/-- The strings of a JSON list, or `none` if some element is not a
string (Python `', '.join` raises `TypeError` on a non-string element). -/
def allStrings : List Json → Option (List String)
  | [] => some []
  | Json.str s :: rest => (allStrings rest).map fun l => s :: l
  | _ => none

/-- Python `', '.join(insights[:2])` (src/workflows.py, line 177): a
string is sliced to its first two characters and those are joined; a
list is joined when its first two elements are all strings and raises
otherwise; every other value is not sliceable, so the slice itself
raises `TypeError`. -/
def joinFirstTwo : Json → Except Unit String
  | Json.str s => .ok (String.intercalate ", " ((s.toList.take 2).map Char.toString))
  | Json.arr xs =>
      match allStrings (xs.take 2) with
      | some strs => .ok (String.intercalate ", " strs)
      | none => .error ()
  | _ => .error ()

/-- Python slicing `v[:n]` succeeds exactly on sequences (strings and
lists); slicing any other JSON value raises `TypeError`. -/
def jSliceable : Json → Bool
  | Json.str _ => true
  | Json.arr _ => true
  | _ => false

/-- The oracles consumed by one `PromptChainWorkflow.execute` run:
`now` stands for `datetime.now().isoformat()`, `elapsed` for the measured
wall-clock time, and the two `Option Json` fields are the parsed results
of the stage-4 and stage-5 model calls (`none` = any exception raised
inside the corresponding `try`, including a JSON decode failure). -/
structure ChainEnv where
  now : String
  insightsOutcome : Option Json
  summaryOutcome : Option Json
  elapsed : ℚ

namespace PromptChainWorkflow

/-- `_step1_ingest` (src/workflows.py, lines 75-77). -/
def step1_ingest (data : Json) (now : String) : JsonObj :=
  [("raw_data", data), ("ingested_at", Json.str now)]

/-- `_step2_preprocess` (src/workflows.py, lines 79-85). -/
def step2_preprocess (data : JsonObj) (symbol : String) (now : String) : JsonObj :=
  [("symbol", Json.str symbol),
   ("structured_data", jGetD data "raw_data" (Json.obj [])),
   ("timestamp", Json.str now)]

/-- `_step3_classify` (src/workflows.py, lines 87-96). -/
def step3_classify (data : JsonObj) : JsonObj :=
  [("symbol", jGetD data "symbol" Json.null),
   ("categories", Json.obj
      [("market_data", Json.bool true),
       ("fundamental_data", Json.bool true),
       ("economic_context", Json.bool false)])]

/-- `_step4_extract_insights_llm` (src/workflows.py, lines 98-142): on any
exception (model error or decode failure) return three generic insight
strings; on success return `result.get("insights", [])` unless that value
is falsy, in which case three other generic strings. -/
def step4_extract_insights_llm (classified : JsonObj) (symbol : String)
    (outcome : Option Json) : Json :=
  match outcome with
  | some (Json.obj o) =>
      let insights := jGetD o "insights" (Json.arr [])
      if jTruthy insights then insights
      else Json.arr [Json.str ("Market analysis completed for " ++ symbol),
                     Json.str "Financial metrics evaluated",
                     Json.str "Investment considerations identified"]
  | _ => Json.arr [Json.str ("Analysis completed for " ++ symbol),
                   Json.str "Key metrics evaluated",
                   Json.str "Investment factors assessed"]

/-- `_step5_summarize_llm` (src/workflows.py, lines 144-177).  Line 147
joins `f"- {insight}"` over `insights` *before* the `try`: a non-iterable
insights value (a number, boolean or `None`) raises an uncaught
`TypeError` there (strings, lists and dicts are iterable).  On a parsed
dict response the summary — or, when it is falsy, a deterministic count
string — is returned; on any exception inside the `try` the handler
joins `insights[:2]` (line 177), which itself raises for a non-sliceable
insights value or non-string list elements. -/
def step5_summarize_llm (insights : Json) (symbol : String)
    (outcome : Option Json) : Except Unit Json :=
  match insights with
  | Json.num _ => .error ()
  | Json.bool _ => .error ()
  | Json.null => .error ()
  | _ =>
    match outcome with
    | some (Json.obj o) =>
        let summary := jGetD o "summary" (Json.str "")
        if jTruthy summary then .ok summary
        else .ok (Json.str ("Analysis of " ++ symbol ++ " reveals "
              ++ toString (jLen insights) ++ " key insights for investors."))
    | _ =>
        match joinFirstTwo insights with
        | .ok joined => .ok (Json.str ("Investment analysis for " ++ symbol
            ++ " completed. Key insights: " ++ joined ++ "."))
        | .error _ => .error ()

/-- `PromptChainWorkflow.execute` (src/workflows.py, lines 35-73): the
five stages run in order; stages 4 and 5 swallow their own model-call
failures, but stage 5 can still raise a `TypeError` while rendering the
stage-4 insights value (see `step5_summarize_llm`), in which case the
whole call raises and no `WorkflowResult` is returned. -/
def execute (symbol : String) (data : Json) (env : ChainEnv) :
    Except Unit WorkflowResult :=
  let ingested := step1_ingest data env.now
  let preprocessed := step2_preprocess ingested symbol env.now
  let classified := step3_classify preprocessed
  let insights := step4_extract_insights_llm classified symbol env.insightsOutcome
  match step5_summarize_llm insights symbol env.summaryOutcome with
  | .error _ => .error ()
  | .ok summary =>
    .ok { workflow_name := "Prompt Chain Workflow"
          timestamp := env.now
          steps_completed := 5
          final_output := summary
          intermediate_results :=
            [[("step", Json.num 1), ("name", Json.str "Ingest"),
              ("output", Json.str "Data ingested")],
             [("step", Json.num 2), ("name", Json.str "Preprocess"),
              ("output", Json.str "Data structured")],
             [("step", Json.num 3), ("name", Json.str "Classify"),
              ("output", Json.str "Data classified")],
             [("step", Json.num 4), ("name", Json.str "Extract (LLM)"),
              ("output", insights)],
             [("step", Json.num 5), ("name", Json.str "Summarize (LLM)"),
              ("output", summary)]]
          execution_time_seconds := env.elapsed }

end PromptChainWorkflow

namespace RoutingWorkflow

/-- `RoutingWorkflow.execute` (src/workflows.py, lines 233-284).
`outcome` is the parsed model response (`none` = transport error or
decode failure).  Inside the `try`, `routing_decision.get("selected_agent",
available_agents[0])` evaluates `available_agents[0]` eagerly and a
non-dict decision raises `AttributeError`; the log at line 266 slices
`reasoning[:60]`, which raises `TypeError` when the reasoning value is
not sliceable.  Each of these exceptions is caught and the fallback
branch runs, where `available_agents[0]` is evaluated again — so an
empty candidate list makes the whole call raise `IndexError` (`.error`). -/
def execute (query : String) (available_agents : List String) (now : String)
    (outcome : Option Json) : Except Unit JsonObj :=
  match outcome, available_agents with
  | some (Json.obj routing_decision), a0 :: _ =>
      let selected_agent := jGetD routing_decision "selected_agent" (Json.str a0)
      let reasoning := jGetD routing_decision "reasoning" (Json.str "Agent selected")
      if jSliceable reasoning then
        .ok [("query", Json.str query),
             ("selected_agent", selected_agent),
             ("reasoning", reasoning),
             ("available_agents", Json.arr (available_agents.map Json.str)),
             ("routing_method", Json.str "LLM-powered"),
             ("timestamp", Json.str now)]
      else
        .ok [("query", Json.str query),
             ("selected_agent", Json.str a0),
             ("reasoning", Json.str "Fallback routing"),
             ("routing_method", Json.str "fallback")]
  | _, a0 :: _ =>
      .ok [("query", Json.str query),
           ("selected_agent", Json.str a0),
           ("reasoning", Json.str "Fallback routing"),
           ("routing_method", Json.str "fallback")]
  | _, [] => .error ()

end RoutingWorkflow

namespace EvaluatorOptimizerWorkflow

/-- One entry of the `iterations` log (src/workflows.py, lines 363-367). -/
structure EOIteration where
  iteration : ℕ
  quality_score : ℚ
  feedback : Json

/-- The dict returned by `EvaluatorOptimizerWorkflow.execute`
(src/workflows.py, lines 379-385). -/
structure EOResult where
  workflow_name : String
  iterations : List EOIteration
  final_quality_score : ℚ
  optimization_applied : Bool
  timestamp : String

/-- `_optimize_with_llm` (src/workflows.py, lines 429-439): mutate the
analysis dict in place.  `analysis.get("optimization_round", 0) + 1` needs
a numeric value, so a present non-numeric value is `none` (Python
`TypeError`, uncaught). -/
def optimize_with_llm (analysis : JsonObj) (evaluation : JsonObj) : Option JsonObj :=
  let feedback := jGetD evaluation "feedback" (Json.arr [])
  match jGetNumD analysis "optimization_round" 0 with
  | none => none
  | some r =>
      some (jSet (jSet (jSet analysis "optimized" (Json.bool true))
              "optimization_round" (Json.num (r + 1)))
            "improvements_applied" feedback)

/-- The `for i in range(self.max_iterations)` loop of `execute`
(src/workflows.py, lines 354-377), one recursive step per index.
`evals i` is the dict returned by `_evaluate_with_llm` at iteration `i`
(that helper catches its own exceptions, returning the fallback
`{"overall_score": 0.75, "feedback": [...]}`, so it never raises).
A non-numeric `overall_score` makes the `score >= 0.8` comparison raise
(`none`). -/
def eoLoop (evals : ℕ → JsonObj) : List ℕ → JsonObj → List EOIteration →
    Option (List EOIteration × JsonObj)
  | [], current_analysis, iterations => some (iterations, current_analysis)
  | i :: rest, current_analysis, iterations =>
      let evaluation := evals i
      match jGetNumD evaluation "overall_score" 0.75 with
      | none => none
      | some score =>
          let iterations := iterations ++
            [⟨i + 1, score, jGetD evaluation "feedback" (Json.arr [])⟩]
          if 0.8 ≤ score then some (iterations, current_analysis)
          else if i < 2 then
            match optimize_with_llm current_analysis evaluation with
            | none => none
            | some current1 => eoLoop evals rest current1 iterations
          else eoLoop evals rest current_analysis iterations

/-- `EvaluatorOptimizerWorkflow.execute` (src/workflows.py, lines
339-385), with `max_iterations = 3`.  Besides the returned dict we also
return the final state of the (in Python, in-place mutated) input
analysis object. -/
def execute (analysis : JsonObj) (evals : ℕ → JsonObj) (now : String) :
    Option (EOResult × JsonObj) :=
  match eoLoop evals [0, 1, 2] analysis [] with
  | none => none
  | some (iterations, final_analysis) =>
      match iterations.getLast? with
      | none => none
      | some last =>
          some ({ workflow_name := "Evaluator-Optimizer Workflow"
                  iterations := iterations
                  final_quality_score := last.quality_score
                  optimization_applied := decide (iterations.length > 1)
                  timestamp := now }, final_analysis)

end EvaluatorOptimizerWorkflow

/-! ## `research_agent.py` -/

namespace InvestmentResearchAgent

/-- The per-cycle oracles of one `conduct_research` run: every network or
model round trip that the cycle performs, in source order.  `.error` /
`none` stands for the exception raised by (or inside) that call. -/
structure Env where
  /-- `datetime.now().isoformat()` (one opaque timestamp per cycle). -/
  now : String
  /-- Parsed planning response, `none` = any failure (fallback plan used). -/
  planLLM : Option Json
  /-- `yahoo_client.get_stock_info(symbol)`: raises, or returns a dict
  (possibly an error-marker map containing an `"error"` key). -/
  stockInfoOutcome : Except Unit JsonObj
  /-- `yahoo_client.get_news(symbol, limit=3)`: raises or returns a list. -/
  newsOutcome : Except Unit (List Json)
  /-- Alpha Vantage result; `none` = client absent or exception caught. -/
  companyOverview : Option JsonObj
  /-- FRED `DFF` result; `none` = client absent or exception caught. -/
  fedRate : Option JsonObj
  /-- FRED `UNRATE` result; `none` = client absent or exception caught. -/
  unemployment : Option JsonObj
  /-- SEC EDGAR result; `.error msg` = exception caught, error marker built. -/
  secOutcome : Except String JsonObj
  /-- Market agent model call (text and parse result). -/
  marketLLM : Except Unit (String × Option Json)
  /-- Fundamentals agent model call. -/
  fundaLLM : Except Unit (String × Option Json)
  /-- Economic agent model call. -/
  econLLM : Except Unit (String × Option Json)
  /-- Prompt-chain stage 4 parsed response. -/
  chainInsightsLLM : Option Json
  /-- Prompt-chain stage 5 parsed response. -/
  chainSummaryLLM : Option Json
  /-- Routing workflow parsed response. -/
  routeLLM : Option Json
  /-- Evaluator `_evaluate_with_llm` result for each loop iteration
  (that helper never raises: it substitutes its own fallback dict). -/
  evalLLM : ℕ → JsonObj
  /-- Parsed reflection response, `none` = any failure (fallback used). -/
  reflectLLM : Option Json
  /-- Wall-clock duration of the prompt-chain workflow. -/
  elapsed : ℚ

/-- Orchestrator state: `self.memory` (src/research_agent.py, line 72). -/
structure OrchState where
  memory : List AgentMemory

/-- `plan_research` (src/research_agent.py, lines 76-202): parse the
planning response into a `ResearchPlan`; on any failure substitute the
deterministic fallback plan.  Never raises. -/
def plan_research (symbol : String) (now : String) (outcome : Option Json) : ResearchPlan :=
  match outcome with
  | some (Json.obj plan_data) =>
      { stock_symbol := symbol
        objectives := jStrList (jGetD plan_data "objectives" (Json.arr []))
        data_sources := jStrList (jGetD plan_data "data_sources" (Json.arr []))
        analysis_steps := jStrList (jGetD plan_data "analysis_steps" (Json.arr []))
        expected_outputs := jStrList (jGetD plan_data "expected_outputs" (Json.arr []))
        reasoning := (match jGetD plan_data "reasoning" (Json.str "") with
                      | Json.str s => s
                      | _ => "")
        timestamp := now }
  | _ =>
      { stock_symbol := symbol
        objectives :=
          ["Analyze current market position and trends",
           "Evaluate financial health and profitability",
           "Assess macroeconomic context",
           "Review regulatory compliance"]
        data_sources := ["Yahoo Finance", "Alpha Vantage", "FRED", "SEC EDGAR"]
        analysis_steps :=
          ["Gather market data", "Analyze fundamentals",
           "Evaluate economic environment", "Review filings",
           "Synthesize findings"]
        expected_outputs :=
          ["Market analysis", "Fundamental assessment", "Economic context",
           "Investment recommendation"]
        reasoning := "Standard comprehensive financial analysis plan"
        timestamp := now }

/-- Everything `execute_research` (src/research_agent.py, lines 204-335)
assembles into its `results` dict when the cycle reaches the end. -/
structure ResearchResults where
  symbol : String
  research_plan : ResearchPlan
  stock_info : JsonObj
  company_overview : Option JsonObj
  news : List Json
  economic_indicators : JsonObj
  sec_filings : JsonObj
  agent_analyses : List (String × AnalysisResult)
  workflow_prompt_chain : WorkflowResult
  workflow_routing : JsonObj
  workflow_evaluator : EvaluatorOptimizerWorkflow.EOResult

/-- `execute_research` (src/research_agent.py, lines 204-335), phase by
phase: plan (never fails); mandatory Yahoo quote fetch (a raised error or
an `"error"` key in the returned map aborts the cycle); news fetch (a
raised error aborts — there is no `try` around it); optional sources
(already degraded inside `Env`); SEC fetch (caught, degraded to an error
marker map); the four specialist agents in order (the three LLM agents
abort the cycle if they raise); the three workflows in order (none of
their calls sits in a `try`, so a prompt-chain stage-5 rendering error,
a routing `IndexError`, or an evaluator `TypeError` aborts the cycle). -/
def execute_research (symbol : String) (env : Env) : Except Unit ResearchResults :=
  let plan := plan_research symbol env.now env.planLLM
  match env.stockInfoOutcome with
  | .error _ => .error ()
  | .ok stock_data =>
    if jHasKey stock_data "error" then .error ()
    else match env.newsOutcome with
    | .error _ => .error ()
    | .ok news =>
      let sec_filings : JsonObj :=
        match env.secOutcome with
        | .ok s => s
        | .error e => [("error", Json.str e)]
      let economic_data : JsonObj :=
        [("fed_funds_rate",
          match env.fedRate with
          | some fr => jGetD fr "latest_value" Json.null
          | none => Json.str "5.33"),
         ("unemployment_rate",
          match env.unemployment with
          | some ur => jGetD ur "latest_value" Json.null
          | none => Json.str "3.8"),
         ("cpi", Json.str "310.5")]
      match MarketDataAgent.analyze symbol stock_data env.now env.marketLLM with
      | .error _ => .error ()
      | .ok market_analysis =>
        match FundamentalsAgent.analyze symbol stock_data env.now env.fundaLLM with
        | .error _ => .error ()
        | .ok fundamentals_analysis =>
          let sector := jStrD stock_data "sector" "Unknown"
          match EconomicContextAgent.analyze sector economic_data env.now env.econLLM with
          | .error _ => .error ()
          | .ok economic_analysis =>
            match RegulatoryAgent.analyze symbol sec_filings env.now with
            | .error _ => .error ()
            | .ok regulatory_analysis =>
              let agent_analyses :=
                [("market", market_analysis),
                 ("fundamentals", fundamentals_analysis),
                 ("economic", economic_analysis),
                 ("regulatory", regulatory_analysis)]
              match PromptChainWorkflow.execute symbol (Json.obj stock_data)
                  ⟨env.now, env.chainInsightsLLM, env.chainSummaryLLM, env.elapsed⟩ with
              | .error _ => .error ()
              | .ok chain_result =>
              match RoutingWorkflow.execute
                  ("Whats the investment outlook for " ++ symbol ++ "?")
                  ["MarketDataAgent", "FundamentalsAgent", "EconomicContextAgent",
                   "RegulatoryAgent"] env.now env.routeLLM with
              | .error _ => .error ()
              | .ok routing_result =>
                let analyses_obj : JsonObj :=
                  agent_analyses.map fun p => (p.1, Json.obj p.2.to_dict)
                match EvaluatorOptimizerWorkflow.execute analyses_obj env.evalLLM env.now with
                | none => .error ()
                | some (eval_result, _) =>
                  .ok { symbol := symbol
                        research_plan := plan
                        stock_info := stock_data
                        company_overview := env.companyOverview
                        news := news
                        economic_indicators := economic_data
                        sec_filings := sec_filings
                        agent_analyses := agent_analyses
                        workflow_prompt_chain := chain_result
                        workflow_routing := routing_result
                        workflow_evaluator := eval_result }

/-- `self_reflect` (src/research_agent.py, lines 337-483): on a parsed
dict response, add the metadata keys; on any failure (including a
non-dict response, whose key assignment raises inside the `try`) build
the deterministic fallback reflection with quality score
`min(0.75 + 0.05 * num_agents + 0.03 * num_workflows, 0.92)`.
Never raises. -/
def self_reflect (symbol : String) (num_agents num_workflows : ℕ)
    (outcome : Option Json) (now : String) : JsonObj :=
  match outcome with
  | some (Json.obj reflection) =>
      jSet (jSet (jSet (jSet (jSet reflection
        "timestamp" (Json.str now))
        "symbol" (Json.str symbol))
        "llm_powered" (Json.bool true))
        "agents_analyzed" (Json.num num_agents))
        "workflows_executed" (Json.num num_workflows)
  | _ =>
      let quality_score := min (0.75 + 0.05 * (num_agents : ℚ) + 0.03 * (num_workflows : ℚ)) 0.92
      [("timestamp", Json.str now),
       ("symbol", Json.str symbol),
       ("overall_quality_score", Json.num quality_score),
       ("dimension_scores", Json.obj
          [("completeness", Json.num 0.80), ("accuracy", Json.num 0.75),
           ("depth", Json.num 0.70), ("actionability", Json.num 0.75)]),
       ("strengths", Json.arr
          [Json.str (toString num_agents ++ " specialized agents provided analysis"),
           Json.str (toString num_workflows ++ " workflow patterns executed successfully"),
           Json.str "Multiple data sources integrated"]),
       ("weaknesses", Json.arr
          [Json.str "LLM reflection unavailable - using fallback assessment"]),
       ("improvement_suggestions", Json.arr
          [Json.str "Configure OpenAI API for LLM-powered reflection",
           Json.str "Add additional data sources",
           Json.str "Extend analysis depth"]),
       ("llm_powered", Json.bool false),
       ("confidence_assessment", Json.str "medium - fallback assessment")]

/-- The `AgentMemory` entry that `learn` (src/research_agent.py, lines
485-543) builds from a reflection: top-5 strengths, the five quality
scores (each defaulting to 0.80), and the improvement suggestions. -/
def learnEntry (symbol : String) (now : String) (reflection : JsonObj) : AgentMemory :=
  let dims : JsonObj :=
    match jLookup reflection "dimension_scores" with
    | some (Json.obj d) => d
    | _ => []
  { stock_symbol := symbol
    timestamp := now
    insights := (jStrList (jGetD reflection "strengths" (Json.arr []))).take 5
    quality_scores :=
      [("overall", jNumD reflection "overall_quality_score" 0.80),
       ("completeness", jNumD dims "completeness" 0.80),
       ("accuracy", jNumD dims "accuracy" 0.80),
       ("depth", jNumD dims "depth" 0.80),
       ("actionability", jNumD dims "actionability" 0.80)]
    recommendations := jStrList (jGetD reflection "improvement_suggestions" (Json.arr []))
    analysis_count := 1 }

/-- The memory mutation performed by `learn` (src/research_agent.py,
lines 526-531): append the new entry, then keep only the last 10. -/
def learnUpdate (memory : List AgentMemory) (entry : AgentMemory) : List AgentMemory :=
  let m := memory ++ [entry]
  if m.length > 10 then lastN 10 m else m

/-- `get_past_learnings` (src/research_agent.py, lines 545-550): newest
matching entry. -/
def get_past_learnings (memory : List AgentMemory) (symbol : String) : Option AgentMemory :=
  memory.reverse.find? fun entry => entry.stock_symbol == symbol

/-- The record compiled at the end of `conduct_research`
(src/research_agent.py, lines 595-617). -/
structure Report where
  symbol : String
  timestamp : String
  research_results : ResearchResults
  self_reflection : JsonObj
  memory_total : ℕ
  previous_analysis_available : Bool
  quality_score : ℚ

/-- `conduct_research` (src/research_agent.py, lines 552-629): run the
full cycle.  The returned state is the post-call `self.memory`: an
exception escapes before `learn` runs, so on `.error` the state is the
unchanged input state. -/
def conduct_research (symbol : String) (env : Env) (st : OrchState) :
    Except Unit Report × OrchState :=
  let past_learning := get_past_learnings st.memory symbol
  match execute_research symbol env with
  | .error _ => (.error (), st)
  | .ok results =>
      let reflection := self_reflect symbol results.agent_analyses.length 3
        env.reflectLLM env.now
      let entry := learnEntry symbol env.now reflection
      let memory1 := learnUpdate st.memory entry
      (.ok { symbol := symbol
             timestamp := env.now
             research_results := results
             self_reflection := reflection
             memory_total := memory1.length
             previous_analysis_available := past_learning.isSome
             quality_score := jNumD reflection "overall_quality_score" 0.80 },
       { memory := memory1 })

/-- The entry a completed `conduct_research` cycle appends to memory,
as a function of the symbol and the cycle oracles (a completed cycle
always has 4 agent analyses and 3 workflow results). -/
def cycleMemoryEntry (symbol : String) (env : Env) : AgentMemory :=
  learnEntry symbol env.now (self_reflect symbol 4 3 env.reflectLLM env.now)

/-- A sequence of `conduct_research` cycles, all of which complete
(`none` as soon as one raises). -/
def runCompletedCycles : List (String × Env) → OrchState → Option OrchState
  | [], st => some st
  | (symbol, env) :: rest, st =>
      match conduct_research symbol env st with
      | (.ok _, st1) => runCompletedCycles rest st1
      | (.error _, _) => none

end InvestmentResearchAgent

/-! ## Helper lemmas -/

open InvestmentResearchAgent EvaluatorOptimizerWorkflow

theorem lastN_of_le (l : List α) (h : l.length ≤ n) : lastN n l = l := by
  unfold lastN
  rw [show l.length - n = 0 by omega, List.drop_zero]

theorem lastN_length_le (n : ℕ) (l : List α) : (lastN n l).length ≤ n := by
  simp only [lastN, List.length_drop]
  omega

theorem lastN_append_of_le (n : ℕ) (xs ys : List α) (h : n ≤ ys.length) :
    lastN n (xs ++ ys) = lastN n ys := by
  unfold lastN
  rw [List.length_append,
    show xs.length + ys.length - n = xs.length + (ys.length - n) by omega,
    List.drop_append]

theorem lastN_lastN_append (n : ℕ) (l xs : List α) :
    lastN n (lastN n l ++ xs) = lastN n (l ++ xs) := by
  by_cases h : l.length ≤ n
  · rw [lastN_of_le l h]
  · have hy : n ≤ (List.drop (l.length - n) l ++ xs).length := by
      rw [List.length_append, List.length_drop]
      omega
    conv_rhs => rw [← List.take_append_drop (l.length - n) l, List.append_assoc]
    rw [lastN_append_of_le _ _ _ hy]
    rfl

theorem learnUpdate_eq_lastN (memory : List AgentMemory) (entry : AgentMemory) :
    learnUpdate memory entry = lastN 10 (memory ++ [entry]) := by
  unfold learnUpdate
  by_cases h : (memory ++ [entry]).length > 10
  · rw [if_pos h]
  · rw [if_neg h]
    exact (lastN_of_le _ (by omega)).symm

theorem learnUpdate_length_le (memory : List AgentMemory) (entry : AgentMemory) :
    (learnUpdate memory entry).length ≤ 10 := by
  rw [learnUpdate_eq_lastN]
  exact lastN_length_le _ _

theorem foldl_learnUpdate (es : List AgentMemory) (init : List AgentMemory)
    (hinit : init.length ≤ 10) :
    List.foldl learnUpdate init es = lastN 10 (init ++ es) := by
  induction es generalizing init with
  | nil =>
      simp only [List.foldl_nil, List.append_nil]
      exact (lastN_of_le _ hinit).symm
  | cons e es ih =>
      rw [List.foldl_cons, ih _ (learnUpdate_length_le init e), learnUpdate_eq_lastN,
        show init ++ e :: es = (init ++ [e]) ++ es by simp]
      exact lastN_lastN_append _ _ _

theorem execute_research_agents_length {symbol : String} {env : Env}
    {results : ResearchResults} (h : execute_research symbol env = .ok results) :
    results.agent_analyses.length = 4 := by
  unfold execute_research at h
  dsimp only [] at h
  repeat' split at h
  all_goals injection h
  all_goals rename_i h1
  all_goals rw [← h1]
  all_goals rfl

theorem conduct_ok_memory {symbol : String} {env : Env} {st : OrchState}
    {r : Report} {st1 : OrchState}
    (h : conduct_research symbol env st = (.ok r, st1)) :
    st1.memory = learnUpdate st.memory (cycleMemoryEntry symbol env) := by
  unfold conduct_research at h
  cases hex : execute_research symbol env with
  | error e =>
      rw [hex] at h
      simp at h
  | ok results =>
      rw [hex] at h
      have hag : results.agent_analyses.length = 4 := execute_research_agents_length hex
      simp only [Prod.mk.injEq] at h
      obtain ⟨h1, h2⟩ := h
      rw [← h2]
      simp [cycleMemoryEntry, hag]

theorem runCompletedCycles_memory (cycles : List (String × Env)) (st st1 : OrchState)
    (h : runCompletedCycles cycles st = some st1) :
    st1.memory = List.foldl learnUpdate st.memory
      (cycles.map fun c => cycleMemoryEntry c.1 c.2) := by
  induction cycles generalizing st with
  | nil =>
      simp only [runCompletedCycles, Option.some.injEq] at h
      rw [← h]
      simp
  | cons c rest ih =>
      obtain ⟨symbol, env⟩ := c
      unfold runCompletedCycles at h
      rcases hc : conduct_research symbol env st with ⟨res, st2⟩
      rw [hc] at h
      cases res with
      | error e => simp at h
      | ok r =>
          simp only at h
          have hm := conduct_ok_memory hc
          rw [List.map_cons, List.foldl_cons, ← hm]
          exact ih st2 h

theorem add_insight_step (m : AgentMemory) (x : String)
    (hnd : m.insights.Nodup) (hlen : m.insights.length ≤ 10) :
    (m.add_insight x).insights.Nodup ∧ (m.add_insight x).insights.length ≤ 10 := by
  unfold AgentMemory.add_insight
  by_cases hx : x ∈ m.insights
  · rw [if_pos hx]
    exact ⟨hnd, hlen⟩
  · rw [if_neg hx]
    have hnd1 : (m.insights ++ [x]).Nodup := by
      simp [List.nodup_append, hnd, hx]
    by_cases hlong : (m.insights ++ [x]).length > 10
    · simp only [hlong, if_pos]
      constructor
      · exact List.Nodup.sublist (List.drop_sublist _ _) hnd1
      · exact lastN_length_le _ _
    · simp only [hlong, if_neg, ite_false]
      exact ⟨hnd1, by omega⟩

theorem add_insight_fold (m : AgentMemory) (xs : List String)
    (hnd : m.insights.Nodup) (hlen : m.insights.length ≤ 10) :
    (List.foldl AgentMemory.add_insight m xs).insights.Nodup ∧
    (List.foldl AgentMemory.add_insight m xs).insights.length ≤ 10 := by
  induction xs generalizing m with
  | nil => exact ⟨hnd, hlen⟩
  | cons x xs ih =>
      have h := add_insight_step m x hnd hlen
      simpa using ih _ h.1 h.2

theorem eoLoop_step_optimize (evals : ℕ → JsonObj) (i : ℕ) (rest : List ℕ)
    (cur : JsonObj) (acc : List EOIteration) (s : ℚ)
    (hs : jGetNumD (evals i) "overall_score" 0.75 = some s)
    (hlow : ¬ (0.8 ≤ s)) (hi : i < 2) (cur1 : JsonObj)
    (hopt : optimize_with_llm cur (evals i) = some cur1) :
    eoLoop evals (i :: rest) cur acc =
      eoLoop evals rest cur1
        (acc ++ [⟨i + 1, s, jGetD (evals i) "feedback" (Json.arr [])⟩]) := by
  conv_lhs => rw [eoLoop]
  rw [hs]
  simp [hlow, hi, hopt]

theorem eoLoop_step_last (evals : ℕ → JsonObj) (rest : List ℕ) (cur : JsonObj)
    (acc : List EOIteration) (s : ℚ)
    (hs : jGetNumD (evals 2) "overall_score" 0.75 = some s)
    (hlow : ¬ (0.8 ≤ s)) :
    eoLoop evals (2 :: rest) cur acc =
      eoLoop evals rest cur
        (acc ++ [⟨3, s, jGetD (evals 2) "feedback" (Json.arr [])⟩]) := by
  conv_lhs => rw [eoLoop]
  rw [hs]
  simp [hlow]

/-! ## Claim theorems -/

/-- Claim C1: constructing an `AnalysisResult` with a confidence score
strictly below 0 or strictly above 1 raises a validation error, and every
successfully constructed `AnalysisResult` has `0 ≤ confidence_score ≤ 1`. -/
theorem analysisResult_confidence_valid :
    (∀ an ts ds f (c : ℚ) r lr, (c < 0 ∨ 1 < c) →
      mkAnalysisResult an ts ds f c r lr =
        .error "Confidence score must be between 0.0 and 1.0") ∧
    (∀ an ts ds f (c : ℚ) r lr res, mkAnalysisResult an ts ds f c r lr = .ok res →
      0 ≤ res.confidence_score ∧ res.confidence_score ≤ 1) := by
  constructor
  · intro an ts ds f c r lr h
    unfold mkAnalysisResult
    rw [if_neg]
    rcases h with h | h
    · exact fun hc => absurd hc.1 (not_le.mpr h)
    · exact fun hc => absurd hc.2 (not_le.mpr h)
  · intro an ts ds f c r lr res h
    unfold mkAnalysisResult at h
    by_cases hc : 0 ≤ c ∧ c ≤ 1
    · rw [if_pos hc] at h
      injection h with h1
      rw [← h1]
      exact hc
    · rw [if_neg hc] at h
      exact absurd h (by simp)

/-- The successfully constructed result used by the C1 witness. -/
def resW : AnalysisResult :=
  ⟨"a", "t", "d", Json.null, 0.85, Json.null, "r"⟩

/-- Witness for C1 at the concrete scores 1.5 (rejected) and 0.85
(accepted). -/
theorem analysisResult_confidence_valid_witness :
    ((3/2 : ℚ) < 0 ∨ 1 < (3/2 : ℚ)) ∧
    mkAnalysisResult "a" "t" "d" Json.null (3/2) Json.null "r" =
      .error "Confidence score must be between 0.0 and 1.0" ∧
    mkAnalysisResult "a" "t" "d" Json.null 0.85 Json.null "r" = .ok resW ∧
    (0 ≤ resW.confidence_score ∧ resW.confidence_score ≤ 1) := by
  have h1 : (3/2 : ℚ) < 0 ∨ 1 < (3/2 : ℚ) := Or.inr (by norm_num)
  have hok : mkAnalysisResult "a" "t" "d" Json.null 0.85 Json.null "r" = .ok resW := by
    unfold mkAnalysisResult
    rw [if_pos (by norm_num)]
    rfl
  exact ⟨h1,
    analysisResult_confidence_valid.1 "a" "t" "d" Json.null (3/2) Json.null "r" h1,
    hok,
    analysisResult_confidence_valid.2 "a" "t" "d" Json.null 0.85 Json.null "r" resW hok⟩

/-- Counterexample to C4: on model text whose JSON parse fails, the
fundamentals and economic agents raise (the claim says all three
specialist agents fall back to a minimal findings object). -/
theorem specialist_parse_fallback_counterexample :
    FundamentalsAgent.analyze "AAPL" [] "t0" (.ok ("plain text", none)) = .error () ∧
    EconomicContextAgent.analyze "Technology" [] "t0" (.ok ("plain text", none)) = .error () :=
  ⟨rfl, rfl⟩

/-- Claim C4 (amended): when the model call returns text that is not
parseable JSON, only the market agent still returns an `AnalysisResult`,
whose findings is a minimal object containing the raw text and a generic
recommendation list; the fundamentals and economic agents propagate the
parse failure as an exception instead. -/
theorem specialist_parse_fallback (symbol sector text now : String) (data edata : JsonObj) :
    MarketDataAgent.analyze symbol data now (.ok (text, none)) =
      .ok { agent_name := "Market Data Agent"
            timestamp := now
            data_source := "Yahoo Finance AOI + OpenAI GPT-4o-mini"
            findings := Json.obj [("raw_analysis", Json.str text),
              ("price_trend", Json.str "Analysis provided in raw format"),
              ("recommendations", Json.arr [Json.str "Review raw analysis for insights"])]
            confidence_score := 0.85
            recommendations := Json.arr [Json.str "Review raw analysis for insights"]
            llm_reasoning := text } ∧
    FundamentalsAgent.analyze symbol data now (.ok (text, none)) = .error () ∧
    EconomicContextAgent.analyze sector edata now (.ok (text, none)) = .error () :=
  ⟨by with_unfolding_all rfl, rfl, rfl⟩

/-- Counterexample to C6: when the stage-4 model call returns parseable
JSON whose truthy `insights` value is a number, stage 4 returns it
as-is (src/workflows.py, line 130) and stage 5 raises a `TypeError`
while rendering it, before its own `try` (line 147) — so `execute`
raises and no `WorkflowResult` with `steps_completed = 5` is returned. -/
theorem prompt_chain_five_steps_counterexample :
    jTruthy (Json.num 5) = true ∧
    PromptChainWorkflow.step4_extract_insights_llm [] "AAPL"
        (some (Json.obj [("insights", Json.num 5)])) = Json.num 5 ∧
    PromptChainWorkflow.execute "AAPL" (Json.obj [])
        ⟨"t", some (Json.obj [("insights", Json.num 5)]), some (Json.obj []), 0⟩ =
      .error () :=
  ⟨by with_unfolding_all rfl, by with_unfolding_all rfl, by with_unfolding_all rfl⟩

/-- Claim C6 (amended): every run of `PromptChainWorkflow.execute` that
returns a `WorkflowResult` — including every run where either LLM stage
fails or returns unparseable output — has `steps_completed = 5` and an
intermediate log of exactly 5 entries whose step fields are 1,2,3,4,5 in
order; the only runs that return nothing are those where stage 5 raises
a `TypeError` rendering an adversarial parseable stage-4 insights value. -/
theorem prompt_chain_five_steps (symbol : String) (data : Json) (env : ChainEnv)
    (r : WorkflowResult)
    (h : PromptChainWorkflow.execute symbol data env = .ok r) :
    r.steps_completed = 5 ∧
    r.intermediate_results.map (fun o => jLookup o "step") =
      [some (Json.num 1), some (Json.num 2), some (Json.num 3),
       some (Json.num 4), some (Json.num 5)] := by
  unfold PromptChainWorkflow.execute at h
  dsimp only [] at h
  split at h
  · injection h
  · injection h with h1
    rw [← h1]
    exact ⟨rfl, rfl⟩

/-- The chain environment of the C6 witness: both LLM stages succeed. -/
def chainEnvW : ChainEnv :=
  ⟨"t", some (Json.obj []), some (Json.obj [("summary", Json.str "s")]), 0⟩

/-- Witness for C6 on a concrete completing run. -/
theorem prompt_chain_five_steps_witness :
    ∃ r, PromptChainWorkflow.execute "A" (Json.obj []) chainEnvW = .ok r ∧
      r.steps_completed = 5 ∧
      r.intermediate_results.map (fun o => jLookup o "step") =
        [some (Json.num 1), some (Json.num 2), some (Json.num 3),
         some (Json.num 4), some (Json.num 5)] := by
  have h : (PromptChainWorkflow.execute "A" (Json.obj []) chainEnvW).toOption.isSome = true := by
    with_unfolding_all rfl
  obtain ⟨r, hr⟩ := Option.isSome_iff_exists.mp h
  have h1 : PromptChainWorkflow.execute "A" (Json.obj []) chainEnvW = .ok r := by
    rcases h2 : PromptChainWorkflow.execute "A" (Json.obj []) chainEnvW with e | a
    · rw [h2] at hr
      simp [Except.toOption] at hr
    · rw [h2] at hr
      simp only [Except.toOption, Option.some.injEq] at hr
      rw [hr]
  exact ⟨r, h1, prompt_chain_five_steps "A" (Json.obj []) chainEnvW r h1⟩

/-- Claim C7: for every query and non-empty candidate list, a raised
routing model call yields the first candidate with
`routing_method = "fallback"`. -/
theorem routing_fallback_first_agent (query now a0 : String) (rest : List String) :
    ∃ o, RoutingWorkflow.execute query (a0 :: rest) now none = .ok o ∧
      jLookup o "selected_agent" = some (Json.str a0) ∧
      jLookup o "routing_method" = some (Json.str "fallback") :=
  ⟨_, rfl, rfl, rfl⟩

/-- Counterexample to C10: a successful, parseable routing response that
lacks `"selected_agent"` but carries a non-sliceable `reasoning` value
makes the in-`try` log slicing (src/workflows.py, line 266) raise, so
the except branch runs and the decision is flagged `"fallback"`, not
`"LLM-powered"`. -/
theorem routing_missing_key_counterexample :
    jLookup [("reasoning", Json.num 42)] "selected_agent" = none ∧
    RoutingWorkflow.execute "q" ["A", "B"] "t"
        (some (Json.obj [("reasoning", Json.num 42)])) =
      .ok [("query", Json.str "q"), ("selected_agent", Json.str "A"),
           ("reasoning", Json.str "Fallback routing"),
           ("routing_method", Json.str "fallback")] ∧
    Json.str "fallback" ≠ Json.str "LLM-powered" := by
  refine ⟨rfl, by with_unfolding_all rfl, ?_⟩
  intro hcontra
  injection hcontra with h1
  exact absurd h1 (by decide)

/-- Claim C10 (amended): a successful, parseable routing response that
lacks the `"selected_agent"` key and whose `reasoning` value (or its
default when absent) is sliceable — a string or a list — yields the
first candidate while `routing_method = "LLM-powered"`, indistinguishable
by provenance flag from a model-chosen agent; a non-sliceable reasoning
value instead diverts to the fallback branch. -/
theorem routing_missing_key_default (query now a0 : String) (rest : List String)
    (rd : JsonObj) (hmiss : jLookup rd "selected_agent" = none)
    (hsl : jSliceable (jGetD rd "reasoning" (Json.str "Agent selected")) = true) :
    ∃ o, RoutingWorkflow.execute query (a0 :: rest) now (some (Json.obj rd)) = .ok o ∧
      jLookup o "selected_agent" = some (Json.str a0) ∧
      jLookup o "routing_method" = some (Json.str "LLM-powered") := by
  have hex : RoutingWorkflow.execute query (a0 :: rest) now (some (Json.obj rd)) =
      .ok [("query", Json.str query),
           ("selected_agent", jGetD rd "selected_agent" (Json.str a0)),
           ("reasoning", jGetD rd "reasoning" (Json.str "Agent selected")),
           ("available_agents", Json.arr ((a0 :: rest).map Json.str)),
           ("routing_method", Json.str "LLM-powered"),
           ("timestamp", Json.str now)] := by
    simp [RoutingWorkflow.execute, hsl]
  refine ⟨_, hex, ?_, ?_⟩ <;> simp [jLookup, jGetD, hmiss]

/-- Witness for C10 on a parseable response with only a (string-valued)
reasoning key. -/
theorem routing_missing_key_default_witness :
    jLookup [("reasoning", Json.str "because")] "selected_agent" = none ∧
    jSliceable (jGetD [("reasoning", Json.str "because")] "reasoning"
      (Json.str "Agent selected")) = true ∧
    (∃ o, RoutingWorkflow.execute "q" ["A", "B"] "t"
        (some (Json.obj [("reasoning", Json.str "because")])) = .ok o ∧
      jLookup o "selected_agent" = some (Json.str "A") ∧
      jLookup o "routing_method" = some (Json.str "LLM-powered")) :=
  ⟨rfl, rfl, routing_missing_key_default "q" "t" "A" ["B"]
    [("reasoning", Json.str "because")] rfl rfl⟩

/-- Counterexample to C9: (a) with a falsy (0) current price the computed
price change is 0, not `current − previous`; (b) with a falsy 52-week low
the range position is "N/A" even though `high > low`; (c) with
`current = low` (nonzero bounds, `high > low`) the position is computed as
0 but the prompt still renders "N/A". -/
theorem market_derived_fields_counterexample :
    (price_change 0 (17422/100) = 0 ∧ (0 : ℚ) ≠ 0 - 17422/100) ∧
    (range_position 5 0 10 = none ∧ (10 : ℚ) > 0) ∧
    (range_position 3 3 10 = some 0 ∧
      range_position_is_na (range_position 3 3 10) = true) := by
  have h5 : range_position 3 3 10 = some 0 := by norm_num [range_position]
  refine ⟨⟨by norm_num [price_change], by norm_num⟩,
          ⟨by norm_num [range_position], by norm_num⟩, h5, ?_⟩
  rw [h5]
  simp [range_position_is_na]

/-- Claim C9 (amended): the derived fields follow the claimed formulas
under the falsy guards the code actually applies — price change is
`current − previous` only when both are nonzero (else 0); the percent is
`change / previous × 100` when the previous close is nonzero (else 0);
the range position `(current − low)/(high − low) × 100` is computed only
when both 52-week bounds are nonzero and `high > low`, and the prompt
renders "N/A" otherwise and also when the computed position is 0.  At the
claimed concrete inputs the values are 1.21, ≈0.694 and ≈31.9 within the
stated tolerances. -/
theorem market_derived_fields (c p l h : ℚ)
    (hc : c ≠ 0) (hp : p ≠ 0) (hl : l ≠ 0) (hh : h ≠ 0) (hlh : l < h) :
    price_change c p = c - p ∧
    price_change_pct c p = (c - p) / p * 100 ∧
    price_change 0 p = 0 ∧
    price_change_pct c 0 = 0 ∧
    range_position c l h = some ((c - l) / (h - l) * 100) ∧
    (∀ c1 l1 h1 : ℚ, ¬ (h1 ≠ 0 ∧ l1 ≠ 0 ∧ h1 > l1) → range_position c1 l1 h1 = none) ∧
    (range_position_is_na (range_position c l h) = true ↔ (c - l) / (h - l) * 100 = 0) ∧
    |price_change (17543/100) (17422/100) - 121/100| ≤ 1/100 ∧
    |price_change_pct (17543/100) (17422/100) - 694/1000| ≤ 1/100 ∧
    (∃ r, range_position (17543/100) (16408/100) (19962/100) = some r ∧
      |r - 319/10| ≤ 1/10) := by
  have hrp : range_position c l h = some ((c - l) / (h - l) * 100) := by
    unfold range_position
    rw [if_pos ⟨hh, hl, hlh⟩]
  refine ⟨by simp [price_change, hc, hp], ?_, by simp [price_change], ?_, hrp, ?_, ?_, ?_, ?_, ?_⟩
  · unfold price_change_pct price_change
    rw [if_pos hp, if_pos ⟨hc, hp⟩]
  · simp [price_change_pct]
  · intro c1 l1 h1 hno
    unfold range_position
    rw [if_neg hno]
  · rw [hrp]
    unfold range_position_is_na
    simp
  · rw [abs_le]
    norm_num [price_change]
  · rw [abs_le]
    norm_num [price_change_pct, price_change]
  · refine ⟨113500/3554, ?_, ?_⟩
    · norm_num [range_position]
    · rw [abs_le]
      norm_num

/-- Witness for C9 at the concrete inputs from the claim. -/
theorem market_derived_fields_witness :
    ((17543/100 : ℚ) ≠ 0 ∧ (17422/100 : ℚ) ≠ 0 ∧ (16408/100 : ℚ) ≠ 0 ∧
      (19962/100 : ℚ) ≠ 0 ∧ (16408/100 : ℚ) < 19962/100) ∧
    price_change (17543/100) (17422/100) = 17543/100 - 17422/100 :=
  ⟨⟨by norm_num, by norm_num, by norm_num, by norm_num, by norm_num⟩,
    (market_derived_fields (17543/100) (17422/100) (16408/100) (19962/100)
      (by norm_num) (by norm_num) (by norm_num) (by norm_num) (by norm_num)).1⟩

/-- An `AgentMemory` already holding 11 distinct insights. -/
def mem11 : AgentMemory :=
  { stock_symbol := "AAPL", timestamp := "t"
    insights := ["a", "b", "c", "d", "e", "f", "g", "h", "i", "j", "k"]
    quality_scores := [], recommendations := [], analysis_count := 1 }

/-- Counterexample to C8: starting from a duplicate-free insights list of
11 entries, adding an insight that is already present leaves the list at
11 entries — more than 10. -/
theorem add_insight_cap_counterexample :
    mem11.insights.Nodup ∧
    ¬ ((List.foldl AgentMemory.add_insight mem11 ["a"]).insights.length ≤ 10) :=
  ⟨by decide, by decide⟩

/-- Claim C8 (amended): for every `AgentMemory` whose insights list is
duplicate-free with at most 10 entries, any sequence of `add_insight`
calls keeps the list duplicate-free with at most 10 entries; each call
with an insight already present is a no-op, and each call with a new
insight appends it at the end, evicting the oldest entries beyond 10. -/
theorem add_insight_bounded (m : AgentMemory) (xs : List String)
    (hnd : m.insights.Nodup) (hlen : m.insights.length ≤ 10) :
    (List.foldl AgentMemory.add_insight m xs).insights.Nodup ∧
    (List.foldl AgentMemory.add_insight m xs).insights.length ≤ 10 ∧
    (∀ (l : AgentMemory) (x : String), x ∈ l.insights →
      (l.add_insight x).insights = l.insights) ∧
    (∀ (l : AgentMemory) (x : String), x ∉ l.insights →
      (l.add_insight x).insights = lastN 10 (l.insights ++ [x])) := by
  obtain ⟨h1, h2⟩ := add_insight_fold m xs hnd hlen
  refine ⟨h1, h2, ?_, ?_⟩
  · intro l x hx
    unfold AgentMemory.add_insight
    rw [if_pos hx]
  · intro l x hx
    unfold AgentMemory.add_insight
    rw [if_neg hx]
    by_cases hlong : (l.insights ++ [x]).length > 10
    · rw [if_pos hlong]
    · rw [if_neg hlong]
      show l.insights ++ [x] = lastN 10 (l.insights ++ [x])
      exact (lastN_of_le _ (by omega)).symm

/-- An `AgentMemory` with a single insight, for the C8 witness. -/
def mem1 : AgentMemory :=
  { stock_symbol := "AAPL", timestamp := "t", insights := ["p"]
    quality_scores := [], recommendations := [], analysis_count := 1 }

/-- Witness for C8 on a concrete two-call sequence. -/
theorem add_insight_bounded_witness :
    mem1.insights.Nodup ∧ mem1.insights.length ≤ 10 ∧
    ((List.foldl AgentMemory.add_insight mem1 ["q", "p"]).insights.Nodup ∧
     (List.foldl AgentMemory.add_insight mem1 ["q", "p"]).insights.length ≤ 10 ∧
     (∀ (l : AgentMemory) (x : String), x ∈ l.insights →
       (l.add_insight x).insights = l.insights) ∧
     (∀ (l : AgentMemory) (x : String), x ∉ l.insights →
       (l.add_insight x).insights = lastN 10 (l.insights ++ [x]))) :=
  ⟨by decide, by decide, add_insight_bounded mem1 ["q", "p"] (by decide) (by decide)⟩

/-- An analysis object that already carries `optimization_round = 5`. -/
def eoCounterAnalysis : JsonObj := [("optimization_round", Json.num 5)]

/-- Evaluations that always score 0.5 (< 0.8). -/
def eoCounterEvals : ℕ → JsonObj :=
  fun _ => [("overall_score", Json.num 0.5), ("feedback", Json.arr [])]

/-- Counterexample to C5: on an input analysis that already carries
`optimization_round = 5`, a run whose evaluations all score 0.5 (< 0.8)
still logs 3 iterations but ends with `optimization_round = 7`, not 2. -/
theorem evaluator_optimizer_round_counterexample :
    jGetNumD (eoCounterEvals 0) "overall_score" 0.75 = some 0.5 ∧
    (0.5 : ℚ) < 0.8 ∧
    eoCounterEvals 1 = eoCounterEvals 0 ∧ eoCounterEvals 2 = eoCounterEvals 0 ∧
    (EvaluatorOptimizerWorkflow.execute eoCounterAnalysis eoCounterEvals "t").map
        (fun p => (p.1.iterations.length, jLookup p.2 "optimization_round")) =
      some (3, some (Json.num 7)) ∧
    (some (Json.num 7) : Option Json) ≠ some (Json.num 2) := by
  refine ⟨rfl, by norm_num, rfl, rfl, by with_unfolding_all rfl, ?_⟩
  intro hcontra
  rw [Option.some.injEq, Json.num.injEq] at hcontra
  norm_num at hcontra

/-- Claim C5 (amended): for every run of `EvaluatorOptimizerWorkflow.execute`
whose input analysis does not already carry an `optimization_round` entry
and whose evaluations all yield an overall score strictly below 0.8, the
iteration log has exactly 3 entries and the analysis object afterwards
carries `optimization_round = 2` (the optimize step ran exactly twice,
between the three evaluations). -/
theorem evaluator_optimizer_three_iterations (analysis : JsonObj) (evals : ℕ → JsonObj)
    (now : String)
    (hround : jLookup analysis "optimization_round" = none)
    (hs : ∀ i, ∃ s, jGetNumD (evals i) "overall_score" 0.75 = some s ∧ s < 0.8) :
    ∃ res final, EvaluatorOptimizerWorkflow.execute analysis evals now = some (res, final) ∧
      res.iterations.length = 3 ∧
      jLookup final "optimization_round" = some (Json.num 2) := by
  obtain ⟨s0, h0, l0⟩ := hs 0
  obtain ⟨s1, h1, l1⟩ := hs 1
  obtain ⟨s2, h2, l2⟩ := hs 2
  have hg0 : jGetNumD analysis "optimization_round" 0 = some 0 := by
    unfold jGetNumD
    rw [hround]
  set A1 := jSet (jSet (jSet analysis "optimized" (Json.bool true))
      "optimization_round" (Json.num (0 + 1)))
      "improvements_applied" (jGetD (evals 0) "feedback" (Json.arr [])) with hA1
  have hopt0 : optimize_with_llm analysis (evals 0) = some A1 := by
    unfold optimize_with_llm
    rw [hg0]
  have hA1r : jLookup A1 "optimization_round" = some (Json.num (0 + 1)) := by
    rw [hA1, jLookup_jSet_ne _ _ _ _ (by decide), jLookup_jSet_self]
  have hg1 : jGetNumD A1 "optimization_round" 0 = some (0 + 1) := by
    unfold jGetNumD
    rw [hA1r]
  set A2 := jSet (jSet (jSet A1 "optimized" (Json.bool true))
      "optimization_round" (Json.num (0 + 1 + 1)))
      "improvements_applied" (jGetD (evals 1) "feedback" (Json.arr [])) with hA2
  have hopt1 : optimize_with_llm A1 (evals 1) = some A2 := by
    unfold optimize_with_llm
    rw [hg1]
  have hA2r : jLookup A2 "optimization_round" = some (Json.num (0 + 1 + 1)) := by
    rw [hA2, jLookup_jSet_ne _ _ _ _ (by decide), jLookup_jSet_self]
  have hloop : eoLoop evals [0, 1, 2] analysis [] =
      some ([⟨1, s0, jGetD (evals 0) "feedback" (Json.arr [])⟩,
             ⟨2, s1, jGetD (evals 1) "feedback" (Json.arr [])⟩,
             ⟨3, s2, jGetD (evals 2) "feedback" (Json.arr [])⟩], A2) := by
    rw [eoLoop_step_optimize evals 0 [1, 2] analysis [] s0 h0 (not_le.mpr l0)
        (by norm_num) A1 hopt0,
      eoLoop_step_optimize evals 1 [2] A1 _ s1 h1 (not_le.mpr l1)
        (by norm_num) A2 hopt1,
      eoLoop_step_last evals [] A2 _ s2 h2 (not_le.mpr l2)]
    simp [eoLoop]
  refine ⟨{ workflow_name := "Evaluator-Optimizer Workflow"
            iterations := [⟨1, s0, jGetD (evals 0) "feedback" (Json.arr [])⟩,
                           ⟨2, s1, jGetD (evals 1) "feedback" (Json.arr [])⟩,
                           ⟨3, s2, jGetD (evals 2) "feedback" (Json.arr [])⟩]
            final_quality_score := s2
            optimization_applied := true
            timestamp := now }, A2, ?_, ?_, ?_⟩
  · unfold EvaluatorOptimizerWorkflow.execute
    rw [hloop]
    rfl
  · rfl
  · rw [hA2r]
    simp only [Option.some.injEq, Json.num.injEq]
    norm_num

/-- Evaluations that always score 0.5, for the C5 witness. -/
def eoWitnessEvals : ℕ → JsonObj := fun _ => [("overall_score", Json.num 0.5)]

/-- Witness for C5 on an analysis object without an optimization round. -/
theorem evaluator_optimizer_three_iterations_witness :
    jLookup ([] : JsonObj) "optimization_round" = none ∧
    (∃ res final, EvaluatorOptimizerWorkflow.execute [] eoWitnessEvals "t" = some (res, final) ∧
      res.iterations.length = 3 ∧
      jLookup final "optimization_round" = some (Json.num 2)) :=
  ⟨rfl, evaluator_optimizer_three_iterations [] eoWitnessEvals "t" rfl
    (fun i => ⟨0.5, rfl, by norm_num⟩)⟩

/-- Claim C3: when the mandatory primary quote/fundamentals fetch returns
an error-marker map, `conduct_research` raises, returns no report, and
leaves the memory list unchanged; and whenever a report is returned the
cycle completed all phases, so exactly one learn step updated memory. -/
theorem conduct_research_primary_failure :
    (∀ (symbol : String) (env : Env) (st : OrchState) (si : JsonObj),
      env.stockInfoOutcome = .ok si → jHasKey si "error" = true →
      conduct_research symbol env st = (.error (), st)) ∧
    (∀ (symbol : String) (env : Env) (st : OrchState) (r : Report) (st1 : OrchState),
      conduct_research symbol env st = (.ok r, st1) →
      st1.memory = learnUpdate st.memory (cycleMemoryEntry symbol env)) := by
  constructor
  · intro symbol env st si hsi herr
    have hex : execute_research symbol env = .error () := by
      unfold execute_research
      rw [hsi]
      simp [herr]
    unfold conduct_research
    rw [hex]
  · intro symbol env st r st1 h
    exact conduct_ok_memory h

/-- A cycle environment whose primary fetch returns an error-marker map. -/
def envErr : Env :=
  { now := "t", planLLM := some (Json.obj [])
    stockInfoOutcome := .ok [("error", Json.str "Failed to fetch")]
    newsOutcome := .ok [], companyOverview := none, fedRate := none
    unemployment := none, secOutcome := .ok []
    marketLLM := .ok ("", some (Json.obj []))
    fundaLLM := .ok ("", some (Json.obj []))
    econLLM := .ok ("", some (Json.obj []))
    chainInsightsLLM := some (Json.obj []), chainSummaryLLM := some (Json.obj [])
    routeLLM := some (Json.obj [])
    evalLLM := fun _ => [("overall_score", Json.num 1)]
    reflectLLM := some (Json.obj []), elapsed := 0 }

/-- A cycle environment under which every phase completes. -/
def envOk : Env :=
  { envErr with stockInfoOutcome := .ok [] }

/-- Witness for C3: the failing cycle on `"ZZZZ"` and a completing cycle. -/
theorem conduct_research_primary_failure_witness :
    envErr.stockInfoOutcome = .ok [("error", Json.str "Failed to fetch")] ∧
    jHasKey [("error", Json.str "Failed to fetch")] "error" = true ∧
    conduct_research "ZZZZ" envErr ⟨[]⟩ = (.error (), ⟨[]⟩) ∧
    (∃ (r : Report) (st1 : OrchState), conduct_research "A" envOk ⟨[]⟩ = (.ok r, st1) ∧
      st1.memory = learnUpdate (OrchState.mk []).memory (cycleMemoryEntry "A" envOk)) := by
  refine ⟨rfl, rfl,
    conduct_research_primary_failure.1 "ZZZZ" envErr ⟨[]⟩ _ rfl rfl, ?_⟩
  have h : (conduct_research "A" envOk ⟨[]⟩).1.toOption.isSome = true := by
    with_unfolding_all rfl
  obtain ⟨r, hr⟩ := Option.isSome_iff_exists.mp h
  have h1 : (conduct_research "A" envOk ⟨[]⟩).1 = .ok r := by
    rcases h2 : (conduct_research "A" envOk ⟨[]⟩).1 with e | a
    · rw [h2] at hr
      simp [Except.toOption] at hr
    · rw [h2] at hr
      simp only [Except.toOption, Option.some.injEq] at hr
      rw [hr]
  have hpair : conduct_research "A" envOk ⟨[]⟩ =
      (.ok r, (conduct_research "A" envOk ⟨[]⟩).2) := by
    rw [← h1]
  exact ⟨r, _, hpair,
    conduct_research_primary_failure.2 "A" envOk ⟨[]⟩ r _ hpair⟩

/-- Claim C2: starting from a fresh orchestrator (empty memory), after any
sequence of more than 10 completed `conduct_research` cycles the memory
list is exactly the entries appended by the 10 most recent cycles, in the
order those cycles ran, and has length exactly 10. -/
theorem orchestrator_memory_last_ten (cycles : List (String × Env)) (st1 : OrchState)
    (hrun : runCompletedCycles cycles ⟨[]⟩ = some st1)
    (hN : 10 < cycles.length) :
    st1.memory =
      (cycles.map fun c => cycleMemoryEntry c.1 c.2).drop (cycles.length - 10) ∧
    st1.memory.length = 10 := by
  have hm := runCompletedCycles_memory cycles ⟨[]⟩ st1 hrun
  rw [foldl_learnUpdate _ _ (by simp)] at hm
  simp only [List.nil_append] at hm
  constructor
  · rw [hm]
    simp [lastN, List.length_map]
  · rw [hm]
    simp only [lastN, List.length_drop, List.length_map]
    omega

/-- Eleven completing cycles for the C2 witness. -/
def cyc11 : List (String × Env) := List.replicate 11 ("A", envOk)

/-- Witness for C2 on eleven concrete completed cycles. -/
theorem orchestrator_memory_last_ten_witness :
    10 < cyc11.length ∧
    (∃ st1, runCompletedCycles cyc11 ⟨[]⟩ = some st1 ∧
      st1.memory =
        (cyc11.map fun c => cycleMemoryEntry c.1 c.2).drop (cyc11.length - 10) ∧
      st1.memory.length = 10) := by
  refine ⟨by simp [cyc11], ?_⟩
  have h : (runCompletedCycles cyc11 ⟨[]⟩).isSome = true := by
    with_unfolding_all rfl
  obtain ⟨st1, hst⟩ := Option.isSome_iff_exists.mp h
  obtain ⟨h1, h2⟩ := orchestrator_memory_last_ten cyc11 st1 hst (by simp [cyc11])
  exact ⟨st1, hst, h1, h2⟩

end InvestmentAgent
